import Mathlib

/-
Verification of the Supporter Discord bot (channel content-restriction
engine, XP/leveling state machine, periodic-task scheduling).

Shallow embedding of the Python source:
  - Python_Files/no_text.py        (content classifier + restriction evaluator)
  - Python_Files/level.py          (XP accrual, role reconciliation, reset)
  - Python_Files/reminder.py       (interval parsing and next-run computation)
  - Python_Files/youtube_notification.py (polling dedup discipline)
  - Flask_Frontend/app.py          (restriction configuration endpoints)

Machine integers of the source are modelled as Nat (all masks, XP and
counters in the source are non-negative database integers); time is
modelled in whole seconds as Int.
-/

/-! ### Content type flags (no_text.py, NoTextManager.CONTENT_TYPES) -/

def PLAIN_TEXT : Nat := 1

def DISCORD_INVITES : Nat := 2

def IMAGE_LINKS : Nat := 4

def REGULAR_LINKS : Nat := 8

def IMAGE_ATTACHMENTS : Nat := 16

def FILE_ATTACHMENTS : Nat := 32

def EMBEDS : Nat := 64

/-! ### Restriction evaluator (no_text.py, NoTextManager.on_message, lines 164-216) -/

/-- Decision of the restriction evaluator: keep the message, or delete it
with the set of reason bits that triggered the deletion. -/
inductive Decision where
  | allow : Decision
  | block : Nat → Decision
deriving DecidableEq, Repr

/-- Embeds the Python expression `m & ~a` for non-negative `m`, `a`
(clear in `m` every bit set in `a`).  On each bit, `m && (m ^^ a)`
equals `m && !a`, so this is exactly the bitwise and-not. -/
def andNot (m a : Nat) : Nat := m &&& (m ^^^ a)

/-- The allow/block decision taken by `NoTextManager.on_message`
(no_text.py lines 164-216) once the classifier has produced
`detected_content` and the channel row supplied `allowed_flags` and
`blocked_flags` (NULL columns are read as 0):
if nothing was detected the message is kept; otherwise content hitting
`blocked_flags` deletes the message; otherwise a non-zero allow list
deletes the message when it carries content outside that list. -/
def evaluate (detected_content allowed_flags blocked_flags : Nat) : Decision :=
  if detected_content = 0 then .allow
  else if detected_content &&& blocked_flags ≠ 0 then
    .block (detected_content &&& blocked_flags)
  else if allowed_flags > 0 then
    let disallowed_content := andNot detected_content allowed_flags
    if disallowed_content ≠ 0 then .block disallowed_content else .allow
  else .allow

/-- The evaluator as worded by the specification (section 4.2):
1. `mask == 0`: Allow.  2. `violating = mask & blocked_mask`, non-zero:
Block(violating).  3. if `allowed_mask != 0`, `excess = mask & ~allowed_mask`,
non-zero: Block(excess).  4. otherwise Allow. -/
def evaluate_spec (mask allowed_mask blocked_mask : Nat) : Decision :=
  if mask = 0 then .allow
  else
    let violating := mask &&& blocked_mask
    if violating ≠ 0 then .block violating
    else if allowed_mask ≠ 0 then
      let excess := andNot mask allowed_mask
      if excess ≠ 0 then .block excess else .allow
    else .allow

/-! ### Legacy single-mode restrictions (no_text.py commands vs on_message) -/

/-- The mask columns stored by the `n1-setup-no-text` command
(no_text.py lines 256-269): the INSERT writes `restriction_type = 'media_only'`
and leaves `allowed_content_types` and `blocked_content_types` unset, which
`on_message` later reads back as `(0, 0)` via `config[...] or 0`. -/
def setup_no_text_stored_masks : Nat × Nat := (0, 0)

/-- Modelled from the spec: the configuration-time translation of the legacy
`media_only` mode into an `(allowed_mask, blocked_mask)` pair, which is
absent from the source (section 4.2: `media_only` blocks `PlainText`). -/
def media_only_translation : Nat × Nat := (0, PLAIN_TEXT)

/-! ### Restriction configuration endpoints (Flask_Frontend/app.py) -/

/-- Request body of the dashboard restriction endpoints
(`request.get_json()` fields read by app.py lines 830-845 and 963-970). -/
structure RestrictionRequest where
  channel_id : Option String
  channel_name : Option String
  restriction_type : Option String
  allowed_content_types : Nat
  blocked_content_types : Nat
  redirect_channel_id : Option String
  redirect_channel_name : Option String

/-- One row of `public.channel_restrictions_v2`. -/
structure RestrictionRow where
  id : Nat
  guild_id : String
  channel_id : String
  channel_name : String
  restriction_type : String
  allowed_content_types : Nat
  blocked_content_types : Nat
  redirect_channel_id : Option String
  redirect_channel_name : Option String
deriving DecidableEq

/-- The restriction types accepted by the create endpoint
(app.py line 856). -/
def valid_types : List String :=
  ["block_invites", "block_all_links", "media_only", "text_only"]

/-- `create_channel_restriction_v2` (app.py lines 823-941), for an
authenticated caller with access to the guild: returns the HTTP status
code and the table contents after the call.  Checks run in source order:
missing required fields (400), conflicting allow/block masks (400),
invalid restriction type (400), channel already restricted (409),
otherwise the row is inserted (201). -/
def create_channel_restriction_v2 (db : List RestrictionRow) (guild_id : String)
    (req : RestrictionRequest) (new_id : Nat) : Nat × List RestrictionRow :=
  match req.channel_id, req.channel_name with
  | some channel_id, some channel_name =>
    let restriction_type := req.restriction_type.getD "block_invites"
    let allowed := req.allowed_content_types
    let blocked := req.blocked_content_types
    if allowed > 0 ∧ blocked > 0 ∧ allowed &&& blocked ≠ 0 then (400, db)
    else if restriction_type ≠ "" ∧ restriction_type ∉ valid_types then (400, db)
    else if db.any (fun row => row.guild_id = guild_id ∧ row.channel_id = channel_id) then
      (409, db)
    else
      (201, db ++ [{ id := new_id, guild_id := guild_id, channel_id := channel_id,
                     channel_name := channel_name, restriction_type := restriction_type,
                     allowed_content_types := allowed, blocked_content_types := blocked,
                     redirect_channel_id := req.redirect_channel_id,
                     redirect_channel_name := req.redirect_channel_name }])
  | _, _ => (400, db)

/-- `update_channel_restriction_v2` (app.py lines 953-1046), for an
authenticated caller with access to the guild: conflicting allow/block
masks are rejected (400) before the row is even looked up; a missing row
is 404; otherwise the row is overwritten (200). -/
def update_channel_restriction_v2 (db : List RestrictionRow) (guild_id : String)
    (restriction_id : Nat) (req : RestrictionRequest) : Nat × List RestrictionRow :=
  let allowed := req.allowed_content_types
  let blocked := req.blocked_content_types
  if allowed > 0 ∧ blocked > 0 ∧ allowed &&& blocked ≠ 0 then (400, db)
  else if ¬ db.any (fun row => row.id = restriction_id ∧ row.guild_id = guild_id) then
    (404, db)
  else
    (200, db.map (fun row =>
      if row.id = restriction_id ∧ row.guild_id = guild_id then
        { row with restriction_type := req.restriction_type.getD "",
                   allowed_content_types := allowed,
                   blocked_content_types := blocked,
                   redirect_channel_id := req.redirect_channel_id,
                   redirect_channel_name := req.redirect_channel_name }
      else row))

/-! ### XP accrual state machine (level.py, LevelManager) -/

/-- Per-(guild, user) leveling state, `public.users` row
(level.py, data model UserLevelState). -/
structure UserLevelState where
  xp : Nat
  level : Nat
  voice_xp_earned : Nat
deriving DecidableEq

/-- `LevelManager.create_user` (level.py lines 98-119): a fresh row with
all counters at zero. -/
def create_user : UserLevelState := { xp := 0, level := 0, voice_xp_earned := 0 }

/-- `LevelManager.update_user_xp` (level.py lines 121-136): add the gain,
recompute the level as `new_xp // 1000`, add the voice gain.  Gains are
non-negative in every call site (message amounts come from the settings
row, voice gains pass the `xp_to_add > 0` guard). -/
def update_user_xp (u : UserLevelState) (xp_gain : Nat) (voice_xp_gain : Nat) :
    UserLevelState :=
  let new_xp := u.xp + xp_gain
  { xp := new_xp, level := new_xp / 1000,
    voice_xp_earned := u.voice_xp_earned + voice_xp_gain }

/-- The per-user effect of `LevelManager._perform_full_reset`
(level.py lines 342-345): `SET xp = 0, level = 0, voice_xp_earned = 0`. -/
def reset_user (_ : UserLevelState) : UserLevelState :=
  { xp := 0, level := 0, voice_xp_earned := 0 }

/-- The states a `public.users` row can reach: created lazily, then
mutated only by `update_user_xp` (messages and voice) and by resets. -/
inductive ReachableUser : UserLevelState → Prop where
  | created : ReachableUser create_user
  | accrued (u : UserLevelState) (g v : Nat) :
      ReachableUser u → ReachableUser (update_user_xp u g v)
  | wiped (u : UserLevelState) : ReachableUser u → ReachableUser (reset_user u)

/-- `LevelManager._award_voice_xp` (level.py lines 199-222) acting on the
stored `voice_xp_earned` counter.  `computed` is the value of
`int((elapsed_seconds / 60) * xp_per_minute)`: premature return when the
counter already reached the limit, no-op on a non-positive delta,
otherwise the delta is clamped to the remaining room below the limit. -/
def award_voice_xp (voice_xp_earned voice_xp_limit : Nat) (computed : Int) : Nat :=
  if voice_xp_earned ≥ voice_xp_limit then voice_xp_earned
  else if computed ≤ 0 then voice_xp_earned
  else
    let remaining_room : Int := (voice_xp_limit : Int) - (voice_xp_earned : Int)
    let xp_to_add := min computed remaining_room
    if xp_to_add > 0 then voice_xp_earned + xp_to_add.toNat else voice_xp_earned

/-! ### Role reconciliation (level.py, LevelManager.upgrade_user_roles, lines 267-315) -/

/-- One row of `public.level_roles`: a reward role for a level threshold. -/
structure RoleRow where
  role_id : Nat
  level : Nat
deriving DecidableEq

/-- Python truthiness of the optional `target_role_id`
(`if target_role_id` treats both `None` and `0` as false). -/
def roleIdTruthy : Option Nat → Bool
  | none => false
  | some t => t ≠ 0

/-- `LevelManager.upgrade_user_roles` (level.py lines 267-315) in the
absence of permission errors, at the level of the member's role set:
`rows` is the reward table as fetched (`ORDER BY level DESC`), `current`
the member's role ids.  Picks the first threshold at or below
`new_level` as target, adds it if truthy and missing, strips every other
configured reward role the member holds.  Returns the new role set and
the value the function returns (the target id when a change happened). -/
def upgrade_user_roles (rows : List RoleRow) (current : Finset Nat)
    (new_level : Nat) : Finset Nat × Option Nat :=
  match rows with
  | [] => (current, none)
  | _ :: _ =>
    let target_role_id := (rows.find? fun r => r.level ≤ new_level).map (·.role_id)
    let all_level_role_ids := (rows.map (·.role_id)).toFinset
    let roles_to_add :=
      match target_role_id with
      | some t => if t ≠ 0 then {t} \ current else (∅ : Finset Nat)
      | none => ∅
    let roles_to_remove :=
      (current ∩ all_level_role_ids) \
        (match target_role_id with
         | some t => {t}
         | none => (∅ : Finset Nat))
    ((current ∪ roles_to_add) \ roles_to_remove,
     if roles_to_add ≠ ∅ ∨ roles_to_remove ≠ ∅ then target_role_id else none)

/-! ### YouTube polling dedup (youtube_notification.py, check_for_videos, lines 181-288) -/

/-- Key of `public.youtube_notification_logs`:
(guild_id, yt_channel_id, video_id). -/
structure VideoKey where
  guild_id : String
  yt_channel_id : String
  video_id : String
deriving DecidableEq

/-- State touched by one polling run: the dedup log rows (key and
`video_status` string) and the outbound notification messages sent. -/
structure YTState where
  logs : List (VideoKey × String)
  sent : List VideoKey

/-- `SELECT 1 FROM youtube_notification_logs WHERE ...` — whether the
video already has a log row. -/
def log_exists (logs : List (VideoKey × String)) (k : VideoKey) : Bool :=
  logs.any (fun e => e.1 = k)

/-- Processing of one feed entry inside `check_for_videos`
(youtube_notification.py lines 219-281): an already-logged video is
skipped; a video older than 3600 seconds is logged as 'none' without a
notification; a newer video is sent as a notification and then logged as
'notified'.  `fresh` is `age_seconds ≤ 3600` at the observing cycle. -/
def process_entry (st : YTState) (k : VideoKey) (fresh : Bool) : YTState :=
  if log_exists st.logs k then st
  else if ¬ fresh then { st with logs := st.logs ++ [(k, "none")] }
  else { logs := st.logs ++ [(k, "notified")], sent := st.sent ++ [k] }

/-- Any number of polling cycles over any feed contents, flattened into
the sequence of (key, freshness) observations the cycles make, starting
from an empty log and no messages sent. -/
def run_polling (obs : List (VideoKey × Bool)) : YTState :=
  obs.foldl (fun st ob => process_entry st ob.1 ob.2) { logs := [], sent := [] }

/-- Invariant preserved by each observation: per key, at most one
notification was sent, at most one log row exists, and every notified
key is logged. -/
def YTInv (st : YTState) : Prop :=
  ∀ k : VideoKey,
    st.sent.count k ≤ 1 ∧
    st.logs.countP (fun e => e.1 = k) ≤ 1 ∧
    (k ∈ st.sent → log_exists st.logs k = true)

/-! ### Reminder scheduling (reminder.py, _calculate_next_run lines 473-496
and _send_reminder lines 386-432) -/

/-- ASCII decimal digit, the characters matched by the pattern `\d`
in the interval grammar. -/
def isDigitChar (c : Char) : Bool := '0' ≤ c && c ≤ '9'

/-- Value of a digit string, as `int(amount)` computes it. -/
def digitsToNat (acc : Nat) : List Char → Nat
  | [] => acc
  | c :: cs => digitsToNat (acc * 10 + (c.toNat - '0'.toNat)) cs

/-- `re.match(r"^(\d+)([dhm])$", interval)`: the whole string is a
non-empty digit run followed by a single unit character `d`, `h` or `m`.
(The greedy `\d+` takes every leading digit; since the unit characters
are not digits no backtracking can occur, so the match exists exactly
when the remainder after the digits is one unit character.) -/
def matchInterval (s : String) : Option (Nat × Char) :=
  let l := s.data
  let ds := l.takeWhile isDigitChar
  let rest := l.drop ds.length
  if ds ≠ [] ∧ (rest = ['d'] ∨ rest = ['h'] ∨ rest = ['m']) then
    some (digitsToNat 0 ds, rest.headD 'd')
  else none

/-- `ReminderManager._calculate_next_run` (reminder.py lines 473-496),
with time in whole seconds: `once` and unparseable intervals yield no
next run; otherwise the previous `next_run` is advanced by the parsed
amount of minutes, hours or days (`timedelta` is exact). -/
def calculate_next_run (interval : String) (next_run : Int) : Option Int :=
  if interval = "once" then none
  else
    match matchInterval interval with
    | none => none
    | some (amount, unit) =>
      if unit = 'm' then some (next_run + 60 * amount)
      else if unit = 'h' then some (next_run + 3600 * amount)
      else some (next_run + 86400 * amount)

/-- A `public.reminders` row (the fields `_send_reminder` touches). -/
structure Reminder where
  interval : String
  next_run : Int
  status : String
  run_count : Nat
deriving DecidableEq

/-- The database update performed at the end of
`ReminderManager._send_reminder` (reminder.py lines 407-427) after the
message went out: when a next run exists the reminder stays as it is
with `next_run` advanced; otherwise its status becomes `completed`. -/
def send_reminder_update (r : Reminder) : Reminder :=
  match calculate_next_run r.interval r.next_run with
  | some t => { r with next_run := t, run_count := r.run_count + 1 }
  | none => { r with status := "completed", run_count := r.run_count + 1 }

/-! ### Full XP reset (level.py, _perform_full_reset lines 319-353 and the
level-up guard of _check_and_handle_level_up lines 224-234) -/

/-- A `public.users` row with its keys. -/
structure UserRow where
  guild_id : String
  user_id : String
  xp : Nat
  level : Nat
  voice_xp_earned : Nat
deriving DecidableEq

/-- A `public.last_notified_level` row. -/
structure LastNotifiedRow where
  guild_id : String
  user_id : String
  level : Nat
deriving DecidableEq

/-- `UPDATE public.users SET xp = 0, level = 0, voice_xp_earned = 0
WHERE guild_id = $1` (level.py lines 342-345). -/
def reset_users_table (db : List UserRow) (guild_id : String) : List UserRow :=
  db.map fun r =>
    if r.guild_id = guild_id then
      { r with xp := 0, level := 0, voice_xp_earned := 0 }
    else r

/-- `UPDATE public.last_notified_level SET level = 0 WHERE guild_id = $1`
(level.py lines 346-349). -/
def reset_last_notified_table (db : List LastNotifiedRow) (guild_id : String) :
    List LastNotifiedRow :=
  db.map fun r => if r.guild_id = guild_id then { r with level := 0 } else r

/-- The idempotency guard at the top of
`LevelManager._check_and_handle_level_up` (level.py lines 233-234):
the announcement and role upgrade are suppressed exactly when
`new_level <= last_notified`. -/
def level_up_suppressed (new_level last_notified : Nat) : Bool :=
  new_level ≤ last_notified

/-! ### Content classifier (no_text.py, NoTextManager.detect_content_types,
lines 72-120, with the three regexes of lines 36-44) -/

/-- The whitespace characters stripped by Python `str.strip()` and
matched by `\s` (ASCII part; the same argument extends to the Unicode
whitespace code points). -/
def pyIsSpace (c : Char) : Bool :=
  c == ' ' || c == '\t' || c == '\n' || c == '\r' || c == '\x0b' || c == '\x0c'

/-- Python `str.strip()`: drop whitespace from both ends. -/
def pyStrip (s : List Char) : List Char :=
  ((s.dropWhile pyIsSpace).reverse.dropWhile pyIsSpace).reverse

/-- Consume an exact literal at the head of the input, returning the
remainder (case-sensitive). -/
def dropLit : List Char → List Char → Option (List Char)
  | [], s => some s
  | _ :: _, [] => none
  | c :: cs, d :: ds => if d = c then dropLit cs ds else none

/-- Consume an exact literal (given lowercase) at the head of the input,
case-insensitively, as under `re.IGNORECASE`. -/
def dropLitCI : List Char → List Char → Option (List Char)
  | [], s => some s
  | _ :: _, [] => none
  | c :: cs, d :: ds => if d.toLower = c then dropLitCI cs ds else none

/-- The character class of the URL regex
`http[s]?://(?:[a-zA-Z]|[0-9]|[$-_@.&+]|[!*\\(\\),]|(?:%[0-9a-fA-F][0-9a-fA-F]))+`
(no_text.py lines 36-38).  The alternation unions to the range `$`..`_`
(which already contains `0-9`, `A-Z`, `@.&+*(),%\` and the hex digits),
plus `a-z`, plus `!`; the three-character `%xx` branch adds no character
outside this union, so the repeated alternation matches exactly the
non-empty runs over this class. -/
def urlBodyChar (c : Char) : Bool :=
  ('$' ≤ c && c ≤ '_') || ('a' ≤ c && c ≤ 'z') || c == '!'

/-- Match of the URL regex anchored at the current position: literal
`http`, optional `s` (greedy, deterministic because `://` must follow),
literal `://`, then a maximal non-empty run of `urlBodyChar`.  Returns
the matched text and the rest of the input. -/
def urlMatchAt (s : List Char) : Option (List Char × List Char) :=
  match dropLit ['h', 't', 't', 'p'] s with
  | none => none
  | some r1 =>
    match dropLit ['s', ':', '/', '/'] r1 with
    | some r2 =>
      let run := r2.takeWhile urlBodyChar
      if run = [] then none
      else some (['h', 't', 't', 'p', 's', ':', '/', '/'] ++ run,
        r2.drop run.length)
    | none =>
      match dropLit [':', '/', '/'] r1 with
      | some r2 =>
        let run := r2.takeWhile urlBodyChar
        if run = [] then none
        else some (['h', 't', 't', 'p', ':', '/', '/'] ++ run,
          r2.drop run.length)
      | none => none

/-- Left-to-right non-overlapping scan of the URL regex, with fuel
(`s.length` always suffices because every match is non-empty): returns
the list of matches (`re.findall`) and the input with the matches
removed (`re.sub` with an empty replacement). -/
def urlScanF : Nat → List Char → List (List Char) × List Char
  | _, [] => ([], [])
  | 0, s => ([], s)
  | fuel + 1, c :: rest =>
    match urlMatchAt (c :: rest) with
    | some (m, r) =>
      let p := urlScanF fuel r
      (m :: p.1, p.2)
    | none =>
      let p := urlScanF fuel rest
      (p.1, c :: p.2)

/-- `self.url_pattern.findall(content)`. -/
def url_findall (s : List Char) : List (List Char) := (urlScanF s.length s).1

/-- `self.url_pattern.sub('', content)`. -/
def url_sub_empty (s : List Char) : List Char := (urlScanF s.length s).2

/-- `[a-zA-Z0-9]`, the invite-code character class. -/
def isInviteCodeChar (c : Char) : Bool :=
  ('a' ≤ c && c ≤ 'z') || ('A' ≤ c && c ≤ 'Z') || ('0' ≤ c && c ≤ '9')

/-- After one alternation branch of the invite regex was consumed:
a literal `/` followed by at least one `[a-zA-Z0-9]`. -/
def discordSuffixCheck : Option (List Char) → Bool
  | none => false
  | some ('/' :: r) => !(r.takeWhile isInviteCodeChar).isEmpty
  | some _ => false

/-- `discord(?:app\.com/invite|\.gg)/[a-zA-Z0-9]+` anchored at the
current position (both alternation branches are tried, as the
backtracking engine does). -/
def discordTail (s : List Char) : Bool :=
  match dropLit ['d', 'i', 's', 'c', 'o', 'r', 'd'] s with
  | none => false
  | some r =>
    discordSuffixCheck (dropLit ['a', 'p', 'p', '.', 'c', 'o', 'm', '/',
      'i', 'n', 'v', 'i', 't', 'e'] r) ||
    discordSuffixCheck (dropLit ['.', 'g', 'g'] r)

/-- The optional `(?:www\.)?` group of the invite regex: with the
literal consumed, or backtracked to empty. -/
def discordWww (s : List Char) : Bool :=
  (match dropLit ['w', 'w', 'w', '.'] s with
   | some t => discordTail t
   | none => false) ||
  discordTail s

/-- The invite regex
`(?:https?://)?(?:www\.)?discord(?:app\.com/invite|\.gg)/[a-zA-Z0-9]+`
(no_text.py lines 39-41) anchored at the current position: every
combination of the optional protocol is tried. -/
def discordMatchAt (s : List Char) : Bool :=
  (match dropLit ['h', 't', 't', 'p', 's', ':', '/', '/'] s with
   | some t => discordWww t
   | none => false) ||
  (match dropLit ['h', 't', 't', 'p', ':', '/', '/'] s with
   | some t => discordWww t
   | none => false) ||
  discordWww s

/-- `re.search`: try the anchored match at every position, including the
end of the string. -/
def listSearch (p : List Char → Bool) : List Char → Bool
  | [] => p []
  | c :: rest => p (c :: rest) || listSearch p rest

/-- `self.discord_link_pattern.search(content)` (as a Boolean). -/
def discordSearch (s : List Char) : Bool := listSearch discordMatchAt s

/-- Python `$` without MULTILINE: end of input, or immediately before a
final newline. -/
def pyEndAnchor (t : List Char) : Bool := t == [] || t == ['\n']

/-- The optional `(?:\?\S*)?` group followed by `$`: either the anchor
holds right here, or a literal `?` is followed by a run of non-space
characters reaching the anchor. -/
def queryTailCheck (t : List Char) : Bool :=
  pyEndAnchor t ||
  (match t with
   | '?' :: q =>
     q.all (fun c => !pyIsSpace c) ||
     (match q.getLast? with
      | some '\n' => q.dropLast.all (fun c => !pyIsSpace c)
      | _ => false)
   | _ => false)

/-- `\.(?:png|jpe?g|gif|webp)(?:\?\S*)?$` anchored at the current
position, case-insensitive on the extension letters. -/
def imageSuffix (r : List Char) : Bool :=
  match r with
  | '.' :: rest =>
    [['p', 'n', 'g'], ['j', 'p', 'e', 'g'], ['j', 'p', 'g'],
     ['g', 'i', 'f'], ['w', 'e', 'b', 'p']].any fun ext =>
      match dropLitCI ext rest with
      | some t => queryTailCheck t
      | none => false
  | _ => false

/-- `\S+` followed by the extension suffix: some non-empty prefix of
non-space characters, then `imageSuffix` (all split points of the
backtracking engine are tried). -/
def imageAfterProto : List Char → Bool
  | [] => false
  | c :: rest => !pyIsSpace c && (imageSuffix rest || imageAfterProto rest)

/-- The image-URL regex `https?://\S+\.(?:png|jpe?g|gif|webp)(?:\?\S*)?$`
with `re.IGNORECASE` (no_text.py lines 42-44) anchored at the current
position. -/
def imageMatchAt (s : List Char) : Bool :=
  (match dropLitCI ['h', 't', 't', 'p', 's', ':', '/', '/'] s with
   | some t => imageAfterProto t
   | none => false) ||
  (match dropLitCI ['h', 't', 't', 'p', ':', '/', '/'] s with
   | some t => imageAfterProto t
   | none => false)

/-- `self.image_url_pattern.search(content)` (as a Boolean). -/
def imageSearch (s : List Char) : Bool := listSearch imageMatchAt s

/-- A message attachment: its MIME `content_type` (`None` when the
platform did not provide one). -/
structure Attachment where
  content_type : Option String

/-- `attachment.content_type and attachment.content_type.startswith('image/')`
(an empty string is falsy and has no `image/` prefix, so the check is
prefix membership on the stored type). -/
def attachment_is_image (a : Attachment) : Bool :=
  match a.content_type with
  | some ct => List.isPrefixOf ['i', 'm', 'a', 'g', 'e', '/'] ct.data
  | none => false

/-- `not attachment.content_type or not attachment.content_type.startswith('image/')`
(rule 6: the attachment counts as a file when the MIME type is missing,
empty, or not an image type). -/
def attachment_not_image (a : Attachment) : Bool :=
  match a.content_type with
  | none => true
  | some ct => ct = "" || !(List.isPrefixOf ['i', 'm', 'a', 'g', 'e', '/'] ct.data)

/-- The message attributes read by `detect_content_types`. -/
structure DiscordMessage where
  content : List Char
  attachments : List Attachment
  embeds : Nat

/-- `NoTextManager.detect_content_types` (no_text.py lines 72-120): the
seven independent detection rules, each contributing its flag bit. -/
def detect_content_types (msg : DiscordMessage) : Nat :=
  let d0 := 0
  let d1 :=
    if pyStrip msg.content ≠ [] ∧ pyStrip (url_sub_empty msg.content) ≠ [] then
      d0 ||| PLAIN_TEXT
    else d0
  let d2 := if discordSearch msg.content then d1 ||| DISCORD_INVITES else d1
  let d3 := if imageSearch msg.content then d2 ||| IMAGE_LINKS else d2
  let d4 :=
    if (url_findall msg.content).any
        (fun u => !discordMatchAt u && !imageMatchAt u) then
      d3 ||| REGULAR_LINKS
    else d3
  let d5 :=
    if msg.attachments.any attachment_is_image then d4 ||| IMAGE_ATTACHMENTS
    else d4
  let d6 :=
    if msg.attachments.any attachment_not_image then d5 ||| FILE_ATTACHMENTS
    else d5
  if msg.embeds ≠ 0 then d6 ||| EMBEDS else d6

/-! ## Theorems

Supporting lemmas and the theorems settling claims C1 to C10. -/

/-- Sanity check that `andNot` is the bitwise difference `Nat.ldiff`. -/
theorem andNot_eq_ldiff (m a : Nat) : andNot m a = Nat.ldiff m a := by
  apply Nat.eq_of_testBit_eq
  intro i
  simp only [andNot, Nat.testBit_land, Nat.testBit_xor, Nat.testBit_ldiff]
  cases m.testBit i <;> cases a.testBit i <;> rfl

/-! ### Claims C1, C2, C3 -/

/-- C1: the restriction evaluation of `on_message` follows the specified
order — mask 0 allows; a non-empty intersection with the block mask
blocks with those reason bits; a non-zero allow mask blocks content
outside it with the excess bits; otherwise the message is allowed.
Includes the spec scenario: allow mask `ImageAttachment`, message mask
`ImageAttachment|PlainText` blocks with excess `PlainText`. -/
theorem restriction_evaluation_order (m a b : Nat) :
    evaluate m a b = evaluate_spec m a b ∧
    evaluate (IMAGE_ATTACHMENTS ||| PLAIN_TEXT) IMAGE_ATTACHMENTS 0 =
      .block PLAIN_TEXT := by
  constructor
  · unfold evaluate evaluate_spec
    rcases Nat.eq_zero_or_pos a with ha | ha
    · simp [ha]
    · simp [ha, Nat.pos_iff_ne_zero.mp ha]
  · decide

/-- C2 (counterexample evaluation): a channel configured through the
legacy `n1-setup-no-text` command stores `restriction_type = 'media_only'`
with both mask columns empty, and `on_message` consults only the mask
columns, so a plain-text message (mask `PlainText`) is allowed — while
the spec translation of `media_only` (`blocked_mask = PlainText`) blocks
it.  The legacy mode therefore has no runtime effect at all. -/
theorem legacy_media_only_divergence :
    evaluate PLAIN_TEXT setup_no_text_stored_masks.1 setup_no_text_stored_masks.2 =
      .allow ∧
    evaluate PLAIN_TEXT media_only_translation.1 media_only_translation.2 =
      .block PLAIN_TEXT := by
  decide

/-- C3: any configuration write whose masks conflict
(`allowed & blocked ≠ 0`) is rejected by both the create and the update
endpoint with HTTP 400, and the stored table is returned unchanged. -/
theorem conflicting_masks_rejected (db : List RestrictionRow) (g : String)
    (req : RestrictionRequest) (new_id rid : Nat)
    (h : req.allowed_content_types &&& req.blocked_content_types ≠ 0) :
    create_channel_restriction_v2 db g req new_id = (400, db) ∧
    update_channel_restriction_v2 db g rid req = (400, db) := by
  have ha : req.allowed_content_types ≠ 0 := by
    intro hz
    exact h (by simp [hz])
  have hb : req.blocked_content_types ≠ 0 := by
    intro hz
    exact h (by simp [hz])
  have hcond : req.allowed_content_types > 0 ∧ req.blocked_content_types > 0 ∧
      req.allowed_content_types &&& req.blocked_content_types ≠ 0 :=
    ⟨Nat.pos_of_ne_zero ha, Nat.pos_of_ne_zero hb, h⟩
  constructor
  · unfold create_channel_restriction_v2
    match hc : req.channel_id, hn : req.channel_name with
    | some cid, some cname => simp [hcond]
    | some cid, none => rfl
    | none, some cname => rfl
    | none, none => rfl
  · unfold update_channel_restriction_v2
    simp [hcond]

/-- Witness for C3 at a concrete conflicting request. -/
theorem conflicting_masks_rejected_witness :
    create_channel_restriction_v2 []
      "g1"
      { channel_id := some "c1", channel_name := some "general",
        restriction_type := none, allowed_content_types := 3,
        blocked_content_types := 1, redirect_channel_id := none,
        redirect_channel_name := none } 1 = (400, []) ∧
    update_channel_restriction_v2 []
      "g1" 7
      { channel_id := some "c1", channel_name := some "general",
        restriction_type := none, allowed_content_types := 3,
        blocked_content_types := 1, redirect_channel_id := none,
        redirect_channel_name := none } = (400, []) :=
  conflicting_masks_rejected [] "g1"
    { channel_id := some "c1", channel_name := some "general",
      restriction_type := none, allowed_content_types := 3,
      blocked_content_types := 1, redirect_channel_id := none,
      redirect_channel_name := none } 1 7 (by decide)

/-! ### Claims C4, C5 -/

/-- C4: every reachable user row satisfies `level = xp / 1000` — the
create, accrual and reset operations all keep the stored level equal to
the derived floor. -/
theorem level_always_derived (u : UserLevelState) (h : ReachableUser u) :
    u.level = u.xp / 1000 := by
  induction h with
  | created => rfl
  | accrued u g v _ _ => rfl
  | wiped u _ _ => simp [reset_user]

/-- Witness for C4: a row that crossed the 1000-XP boundary. -/
theorem level_always_derived_witness :
    (update_user_xp create_user 1003 0).level =
      (update_user_xp create_user 1003 0).xp / 1000 :=
  level_always_derived (update_user_xp create_user 1003 0)
    (ReachableUser.accrued create_user 1003 0 ReachableUser.created)

/-- A single voice award keeps the counter at or below the limit. -/
theorem award_voice_xp_le (e limit : Nat) (c : Int) (he : e ≤ limit) :
    award_voice_xp e limit c ≤ limit := by
  simp only [award_voice_xp, min_def]
  split_ifs <;> omega

/-- C5: starting from a counter at zero (the state after a reset), any
sequence of voice awards keeps `voice_xp_earned` at or below the guild
limit; a non-positive computed delta is a no-op; a positive delta from
below the limit is clamped to the remaining room rather than rejected. -/
theorem voice_xp_clamped (voice_xp_limit : Nat) (deltas : List Int)
    (e : Nat) (c : Int) :
    (deltas.foldl (fun acc d => award_voice_xp acc voice_xp_limit d) 0 ≤
      voice_xp_limit) ∧
    (c ≤ 0 → award_voice_xp e voice_xp_limit c = e) ∧
    (e < voice_xp_limit → 0 < c →
      award_voice_xp e voice_xp_limit c = min (e + c.toNat) voice_xp_limit) := by
  refine ⟨?_, ?_, ?_⟩
  · have main : ∀ (l : List Int) (start : Nat), start ≤ voice_xp_limit →
        l.foldl (fun acc d => award_voice_xp acc voice_xp_limit d) start ≤
          voice_xp_limit := by
      intro l
      induction l with
      | nil => intro start hs; simpa using hs
      | cons d rest ih =>
        intro start hs
        exact ih _ (award_voice_xp_le start voice_xp_limit d hs)
    exact main deltas 0 (Nat.zero_le _)
  · intro hc
    simp only [award_voice_xp, min_def]
    split_ifs <;> omega
  · intro hlt hc
    simp only [award_voice_xp, min_def]
    split_ifs <;> omega

/-- Witness for C5: limit 1500, a sequence that would overshoot stays at
the limit; a negative delta is a no-op; an overshooting award from 1400
is clamped to the remaining 100. -/
theorem voice_xp_clamped_witness :
    ([(60 : Int), 5000, -3].foldl
        (fun acc d => award_voice_xp acc 1500 d) 0 ≤ 1500) ∧
    award_voice_xp 10 1500 (-4) = 10 ∧
    award_voice_xp 1400 1500 200 = min (1400 + (200 : Int).toNat) 1500 :=
  ⟨(voice_xp_clamped 1500 [(60 : Int), 5000, -3] 0 0).1,
   (voice_xp_clamped 1500 [] 10 (-4)).2.1 (by decide),
   (voice_xp_clamped 1500 [] 1400 200).2.2 (by decide) (by decide)⟩

/-! ### Claim C6 -/

/-- On a strictly descending reward table, `find?` returns the highest
threshold at or below the level. -/
theorem find_desc_is_max (rows : List RoleRow) (lvl : Nat)
    (hsorted : rows.Pairwise (fun a b => b.level < a.level)) (rt : RoleRow)
    (hfind : rows.find? (fun r => r.level ≤ lvl) = some rt) :
    rt.level ≤ lvl ∧ ∀ r ∈ rows, r.level ≤ lvl → r.level ≤ rt.level := by
  induction rows with
  | nil => simp at hfind
  | cons r0 rest ih =>
    rw [List.find?_cons] at hfind
    rcases hp : decide (r0.level ≤ lvl) with _ | _
    · rw [hp] at hfind
      have h0 : ¬ r0.level ≤ lvl := of_decide_eq_false hp
      obtain ⟨h1, h2⟩ := ih (List.Pairwise.of_cons hsorted) hfind
      refine ⟨h1, ?_⟩
      intro r hr hrl
      rcases List.mem_cons.mp hr with rfl | hr
      · exact absurd hrl h0
      · exact h2 r hr hrl
    · rw [hp] at hfind
      injection hfind with hfind
      subst hfind
      have h0 : r0.level ≤ lvl := of_decide_eq_true hp
      refine ⟨h0, ?_⟩
      intro r hr _
      rcases List.mem_cons.mp hr with rfl | hr
      · exact le_refl _
      · exact le_of_lt (List.rel_of_pairwise_cons hsorted hr)

/-- C6: after role reconciliation against a non-empty reward table whose
rows are strictly descending by level and whose role ids are non-zero
(real role ids), the member holds exactly the single reward role whose
threshold is the highest one at or below the level — or no reward role
at all when the level is below every threshold. -/
theorem role_reconciliation (rows : List RoleRow) (current : Finset Nat)
    (lvl : Nat) (hne : rows ≠ [])
    (hsorted : rows.Pairwise (fun a b => b.level < a.level))
    (hzero : ∀ r ∈ rows, r.role_id ≠ 0) :
    (∀ rt, rows.find? (fun r => r.level ≤ lvl) = some rt →
      ((upgrade_user_roles rows current lvl).1 ∩
        (rows.map (·.role_id)).toFinset = {rt.role_id}) ∧
      rt.level ≤ lvl ∧ ∀ r ∈ rows, r.level ≤ lvl → r.level ≤ rt.level) ∧
    (rows.find? (fun r => r.level ≤ lvl) = none →
      ((upgrade_user_roles rows current lvl).1 ∩
        (rows.map (·.role_id)).toFinset = ∅) ∧
      ∀ r ∈ rows, lvl < r.level) := by
  obtain ⟨r0, rest, rfl⟩ := List.exists_cons_of_ne_nil hne
  constructor
  · intro rt hfind
    have hmax := find_desc_is_max (r0 :: rest) lvl hsorted rt hfind
    refine ⟨?_, hmax⟩
    have htmem : rt ∈ r0 :: rest := List.mem_of_find?_eq_some hfind
    have htne : rt.role_id ≠ 0 := hzero rt htmem
    have htall : rt.role_id ∈ ((r0 :: rest).map (·.role_id)).toFinset := by
      simp only [List.mem_toFinset, List.mem_map]
      exact ⟨rt, htmem, rfl⟩
    have hstep : (upgrade_user_roles (r0 :: rest) current lvl).1 =
        (current ∪ ({rt.role_id} \ current)) \
          ((current ∩ ((r0 :: rest).map (·.role_id)).toFinset) \ {rt.role_id}) := by
      simp [upgrade_user_roles, hfind, htne]
    rw [hstep]
    ext x
    simp only [Finset.mem_inter, Finset.mem_sdiff, Finset.mem_union,
      Finset.mem_singleton, Finset.not_mem_empty, not_and, not_not]
    constructor
    · tauto
    · rintro rfl
      have htall2 := htall
      simp only [List.mem_toFinset] at htall2
      tauto
  · intro hfind
    constructor
    · have hstep : (upgrade_user_roles (r0 :: rest) current lvl).1 =
          current \ (current ∩ ((r0 :: rest).map (·.role_id)).toFinset) := by
        simp [upgrade_user_roles, hfind]
      rw [hstep]
      ext x
      simp only [Finset.mem_inter, Finset.mem_sdiff, Finset.not_mem_empty,
        iff_false, not_and, not_not]
      tauto
    · intro r hr
      have := List.find?_eq_none.mp hfind r hr
      simpa using Nat.lt_of_not_le (by simpa using this)

/-- Witness for C6: table {level 10 → role 7, level 5 → role 5}, member at
level 12 holding reward role 5 and unrelated role 99 ends up holding
exactly reward role 7, the highest threshold at or below 12. -/
theorem role_reconciliation_witness :
    (upgrade_user_roles [⟨7, 10⟩, ⟨5, 5⟩] {5, 99} 12).1 ∩
      (([⟨7, 10⟩, ⟨5, 5⟩] : List RoleRow).map (·.role_id)).toFinset = {7} ∧
    (⟨7, 10⟩ : RoleRow).level ≤ 12 :=
  have h := (role_reconciliation [⟨7, 10⟩, ⟨5, 5⟩] {5, 99} 12 (by decide)
    (by decide) (by decide)).1 ⟨7, 10⟩ (by decide)
  ⟨h.1, h.2.1⟩

/-! ### Claim C7 -/

theorem process_entry_inv (st : YTState) (k : VideoKey) (fresh : Bool)
    (h : YTInv st) : YTInv (process_entry st k fresh) := by
  intro k'
  obtain ⟨hs, hl, hsl⟩ := h k'
  unfold process_entry
  split
  · exact ⟨hs, hl, hsl⟩
  · rename_i hnew
    have hcount0 : k = k' → st.logs.countP (fun e => e.1 = k') = 0 := by
      intro hk
      subst hk
      simp only [log_exists, List.any_eq_true, decide_eq_true_eq] at hnew
      push_neg at hnew
      rw [List.countP_eq_zero]
      intro e he
      simpa using hnew e he
    split
    · refine ⟨hs, ?_, ?_⟩
      · rw [List.countP_append]
        by_cases hk : k = k'
        · rw [hcount0 hk]
          subst hk
          simp
        · have : List.countP (fun e => decide (e.1 = k')) [(k, "none")] = 0 := by
            simp [hk]
          omega
      · intro hmem
        have := hsl hmem
        simp only [log_exists, List.any_append, Bool.or_eq_true] at *
        exact Or.inl this
    · refine ⟨?_, ?_, ?_⟩
      · rw [List.count_append]
        by_cases hk : k = k'
        · subst hk
          have hnotin : k ∉ st.sent := by
            intro hmem
            rw [hsl hmem] at hnew
            exact hnew rfl
          rw [List.count_eq_zero.mpr hnotin]
          simp
        · have h1 : List.count k' [k] = 0 := by
            simp [List.count_cons, hk]
          omega
      · rw [List.countP_append]
        by_cases hk : k = k'
        · rw [hcount0 hk]
          subst hk
          simp
        · have : List.countP (fun e => decide (e.1 = k')) [(k, "notified")] = 0 := by
            simp [hk]
          omega
      · intro hmem
        simp only [log_exists, List.any_append, Bool.or_eq_true]
        rcases List.mem_append.mp hmem with hold | hnewm
        · exact Or.inl (hsl hold)
        · simp only [List.mem_singleton] at hnewm
          subst hnewm
          exact Or.inr (by simp [List.any_eq_true])

theorem run_polling_inv (obs : List (VideoKey × Bool)) : YTInv (run_polling obs) := by
  unfold run_polling
  have main : ∀ (l : List (VideoKey × Bool)) (st : YTState), YTInv st →
      YTInv (l.foldl (fun st ob => process_entry st ob.1 ob.2) st) := by
    intro l
    induction l with
    | nil => intro st h; exact h
    | cons ob rest ih =>
      intro st h
      exact ih _ (process_entry_inv st ob.1 ob.2 h)
  refine main obs { logs := [], sent := [] } ?_
  intro k
  refine ⟨by simp, by simp, by simp [log_exists]⟩

/-- C7: over any number of polling cycles (any sequence of (key,
freshness) observations), each (guild, external channel, video id)
produces at most one outbound notification and at most one 'notified'
log row; a video already present in the log is always skipped unchanged;
and every notified video is in the log, so the next cycle skips it. -/
theorem youtube_notification_dedup (obs : List (VideoKey × Bool)) (k : VideoKey)
    (st : YTState) (fresh : Bool) (hlogged : log_exists st.logs k = true) :
    (run_polling obs).sent.count k ≤ 1 ∧
    ((run_polling obs).logs.countP
      (fun e => e.1 = k ∧ e.2 = "notified")) ≤ 1 ∧
    process_entry st k fresh = st ∧
    (k ∈ (run_polling obs).sent → log_exists (run_polling obs).logs k = true) := by
  obtain ⟨hs, hl, hsl⟩ := run_polling_inv obs k
  refine ⟨hs, ?_, ?_, hsl⟩
  · calc (run_polling obs).logs.countP (fun e => e.1 = k ∧ e.2 = "notified")
        ≤ (run_polling obs).logs.countP (fun e => e.1 = k) := by
          apply List.countP_mono_left
          intro e _ he
          simpa using (of_decide_eq_true he).1
      _ ≤ 1 := hl
  · unfold process_entry
    rw [if_pos hlogged]

/-- Witness for C7: two polling cycles observe the same fresh video and
an older one; one notification goes out, one 'notified' row exists, and a
logged video is skipped. -/
theorem youtube_notification_dedup_witness :
    (run_polling [(⟨"g", "c", "v1"⟩, true), (⟨"g", "c", "v2"⟩, false),
        (⟨"g", "c", "v1"⟩, true), (⟨"g", "c", "v2"⟩, true)]).sent.count
      ⟨"g", "c", "v1"⟩ ≤ 1 ∧
    process_entry { logs := [(⟨"g", "c", "v1"⟩, "notified")], sent := [] }
        ⟨"g", "c", "v1"⟩ true =
      { logs := [(⟨"g", "c", "v1"⟩, "notified")], sent := [] } :=
  have h := youtube_notification_dedup
    [(⟨"g", "c", "v1"⟩, true), (⟨"g", "c", "v2"⟩, false),
     (⟨"g", "c", "v1"⟩, true), (⟨"g", "c", "v2"⟩, true)] ⟨"g", "c", "v1"⟩
    { logs := [(⟨"g", "c", "v1"⟩, "notified")], sent := [] } true (by decide)
  ⟨h.1, h.2.2.1⟩

/-! ### Claim C8 -/

/-- The literal `once` does not match the interval pattern. -/
theorem matchInterval_once : matchInterval "once" = none := by decide

/-- A successful interval match yields one of the three units. -/
theorem matchInterval_unit (s : String) (n : Nat) (u : Char)
    (h : matchInterval s = some (n, u)) : u = 'd' ∨ u = 'h' ∨ u = 'm' := by
  simp only [matchInterval] at h
  split at h
  · rename_i hcond
    injection h with h
    rcases hcond.2 with hr | hr | hr <;>
      rw [hr] at h <;> injection h with _ h <;> subst h <;> simp
  · exact absurd h (by simp)

/-- C8: firing a reminder whose interval parses as `n` followed by a
unit advances `next_run` by exactly `n` minutes, hours or days from the
previous `next_run` and leaves the status untouched; a reminder with
interval `once` instead has its status set to `completed` and no next
run is computed.  In particular `2d` advances by exactly two days. -/
theorem reminder_next_run (r : Reminder) (n : Nat) (u : Char)
    (h : matchInterval r.interval = some (n, u)) :
    ((send_reminder_update r).status = r.status ∧
     (send_reminder_update r).next_run =
       r.next_run +
         (if u = 'm' then 60 else if u = 'h' then 3600 else 86400) * n) ∧
    (∀ r' : Reminder, r'.interval = "once" →
      (send_reminder_update r').status = "completed" ∧
      calculate_next_run r'.interval r'.next_run = none) ∧
    (∀ t : Int, calculate_next_run "2d" t = some (t + 2 * 86400)) := by
  refine ⟨?_, ?_, ?_⟩
  · have hnotonce : r.interval ≠ "once" := by
      intro he
      rw [he, matchInterval_once] at h
      exact absurd h (by simp)
    have hcalc : calculate_next_run r.interval r.next_run =
        some (r.next_run +
          (if u = 'm' then 60 else if u = 'h' then 3600 else 86400) * n) := by
      unfold calculate_next_run
      rw [if_neg hnotonce, h]
      rcases matchInterval_unit r.interval n u h with rfl | rfl | rfl <;> simp
    unfold send_reminder_update
    rw [hcalc]
    exact ⟨rfl, rfl⟩
  · intro r' he
    unfold send_reminder_update calculate_next_run
    rw [he]
    simp
  · intro t
    have h2d : matchInterval "2d" = some (2, 'd') := by decide
    unfold calculate_next_run
    rw [if_neg (by decide), h2d]
    norm_num
    rw [if_neg (by decide), if_neg (by decide)]

/-- Witness for C8: a reminder with interval `2d` fires from
`next_run = 1000` to `next_run = 1000 + 2·86400` with status preserved. -/
theorem reminder_next_run_witness :
    ((send_reminder_update { interval := "2d", next_run := 1000,
                             status := "active", run_count := 3 }).status =
       "active" ∧
     (send_reminder_update { interval := "2d", next_run := 1000,
                             status := "active", run_count := 3 }).next_run =
       1000 + (if ('d' = 'm') then 60 else if ('d' = 'h') then 3600
         else (86400 : Int)) * 2) ∧
    (send_reminder_update { interval := "once", next_run := 0,
                            status := "active", run_count := 0 }).status =
      "completed" :=
  have h := reminder_next_run { interval := "2d", next_run := 1000,
                                status := "active", run_count := 3 } 2 'd'
    (by decide)
  ⟨h.1, (h.2.1 { interval := "once", next_run := 0, status := "active",
                 run_count := 0 } rfl).1⟩

/-! ### Claim C9 -/

/-- Distinctness of a whitespace character from any non-whitespace one. -/
theorem pyIsSpace_ne (c d : Char) (hc : pyIsSpace c = true)
    (hd : pyIsSpace d = false) : c ≠ d := by
  intro h
  rw [h, hd] at hc
  cases hc

/-- The whitespace characters listed by `pyIsSpace`. -/
theorem pyIsSpace_cases (c : Char) (hc : pyIsSpace c = true) :
    c = ' ' ∨ c = '\t' ∨ c = '\n' ∨ c = '\r' ∨ c = '\x0b' ∨ c = '\x0c' := by
  have h := hc
  simp only [pyIsSpace, Bool.or_eq_true, beq_iff_eq] at h
  tauto

/-- Lowercasing fixes every whitespace character. -/
theorem pyIsSpace_toLower (c : Char) (hc : pyIsSpace c = true) :
    c.toLower = c := by
  rcases pyIsSpace_cases c hc with rfl | rfl | rfl | rfl | rfl | rfl <;> decide

/-- Stripping a whitespace-only string yields the empty string. -/
theorem pyStrip_space (s : List Char) (h : ∀ c ∈ s, pyIsSpace c = true) :
    pyStrip s = [] := by
  have h1 : s.dropWhile pyIsSpace = [] := by
    induction s with
    | nil => rfl
    | cons c rest ih =>
      rw [List.dropWhile_cons, if_pos (h c (List.mem_cons_self c rest))]
      exact ih (fun d hd => h d (List.mem_cons_of_mem c hd))
  rw [pyStrip, h1]
  rfl

/-- The URL regex cannot match at a whitespace character. -/
theorem urlMatchAt_space (c : Char) (rest : List Char)
    (hc : pyIsSpace c = true) : urlMatchAt (c :: rest) = none := by
  have h := pyIsSpace_ne c 'h' hc (by decide)
  simp [urlMatchAt, dropLit, h]

/-- The URL scan of a whitespace-only string finds nothing and removes
nothing. -/
theorem urlScanF_space (s : List Char) (h : ∀ c ∈ s, pyIsSpace c = true) :
    ∀ fuel, urlScanF fuel s = ([], s) := by
  induction s with
  | nil => intro fuel; cases fuel <;> rfl
  | cons c rest ih =>
    intro fuel
    cases fuel with
    | zero => rfl
    | succ f =>
      have hm := urlMatchAt_space c rest (h c (List.mem_cons_self c rest))
      simp only [urlScanF, hm]
      rw [ih (fun d hd => h d (List.mem_cons_of_mem c hd)) f]

/-- The invite regex cannot match at a whitespace character. -/
theorem discordMatchAt_space (c : Char) (rest : List Char)
    (hc : pyIsSpace c = true) : discordMatchAt (c :: rest) = false := by
  have h1 := pyIsSpace_ne c 'h' hc (by decide)
  have h2 := pyIsSpace_ne c 'w' hc (by decide)
  have h3 := pyIsSpace_ne c 'd' hc (by decide)
  simp [discordMatchAt, discordWww, discordTail, dropLit, h1, h2, h3]

/-- The invite regex finds no match in a whitespace-only string. -/
theorem discordSearch_space (s : List Char) (h : ∀ c ∈ s, pyIsSpace c = true) :
    discordSearch s = false := by
  unfold discordSearch
  induction s with
  | nil => decide
  | cons c rest ih =>
    rw [listSearch, discordMatchAt_space c rest (h c (List.mem_cons_self c rest))]
    exact ih (fun d hd => h d (List.mem_cons_of_mem c hd))

/-- The image-URL regex cannot match at a whitespace character. -/
theorem imageMatchAt_space (c : Char) (rest : List Char)
    (hc : pyIsSpace c = true) : imageMatchAt (c :: rest) = false := by
  have h0 := pyIsSpace_toLower c hc
  have h1 := pyIsSpace_ne c 'h' hc (by decide)
  simp [imageMatchAt, dropLitCI, h0, h1]

/-- The image-URL regex finds no match in a whitespace-only string. -/
theorem imageSearch_space (s : List Char) (h : ∀ c ∈ s, pyIsSpace c = true) :
    imageSearch s = false := by
  unfold imageSearch
  induction s with
  | nil => decide
  | cons c rest ih =>
    rw [listSearch, imageMatchAt_space c rest (h c (List.mem_cons_self c rest))]
    exact ih (fun d hd => h d (List.mem_cons_of_mem c hd))

/-- C9: a message whose text is empty or whitespace-only, with no
attachments and no embeds, classifies to mask 0, and `on_message` keeps
it whatever the configured masks are. -/
theorem empty_message_allowed (msg : DiscordMessage) (a b : Nat)
    (hc : ∀ c ∈ msg.content, pyIsSpace c = true)
    (ha : msg.attachments = []) (he : msg.embeds = 0) :
    detect_content_types msg = 0 ∧
    evaluate (detect_content_types msg) a b = .allow := by
  have hd : detect_content_types msg = 0 := by
    have hstrip := pyStrip_space msg.content hc
    have hscan := urlScanF_space msg.content hc msg.content.length
    have hds := discordSearch_space msg.content hc
    have his := imageSearch_space msg.content hc
    simp [detect_content_types, url_findall, hscan, hstrip, hds, his, ha, he]
  exact ⟨hd, by rw [hd]; rfl⟩

/-- Witness for C9: a two-space-and-tab message with no attachments and
no embeds. -/
theorem empty_message_allowed_witness :
    detect_content_types ⟨[' ', ' ', '\t'], [], 0⟩ = 0 ∧
    evaluate (detect_content_types ⟨[' ', ' ', '\t'], [], 0⟩) 21 64 = .allow :=
  empty_message_allowed ⟨[' ', ' ', '\t'], [], 0⟩ 21 64 (by decide) rfl rfl


/-! ### Claim C10 -/

/-- C10: a full reset zeroes xp, level and voice XP on every user row of
the guild, zeroes the persisted last-notified level of every row of the
guild, leaves rows of other guilds untouched, and with a last-notified
level of 0 the guard no longer suppresses any level-up to a positive
level. -/
theorem full_reset_restores_announcements (users : List UserRow)
    (ln : List LastNotifiedRow) (g : String) :
    (∀ r ∈ reset_users_table users g, r.guild_id = g →
      r.xp = 0 ∧ r.level = 0 ∧ r.voice_xp_earned = 0) ∧
    (∀ r ∈ reset_last_notified_table ln g, r.guild_id = g → r.level = 0) ∧
    (∀ r ∈ reset_users_table users g, r.guild_id ≠ g → r ∈ users) ∧
    (∀ new_level : Nat, 1 ≤ new_level →
      level_up_suppressed new_level 0 = false) := by
  refine ⟨?_, ?_, ?_, ?_⟩
  · intro r hr hg
    obtain ⟨a, ha, rfl⟩ := List.mem_map.mp hr
    by_cases hag : a.guild_id = g
    · simp [hag]
    · rw [if_neg hag] at hg ⊢
      exact absurd hg hag
  · intro r hr hg
    obtain ⟨a, ha, rfl⟩ := List.mem_map.mp hr
    by_cases hag : a.guild_id = g
    · simp [hag]
    · rw [if_neg hag] at hg ⊢
      exact absurd hg hag
  · intro r hr hg
    obtain ⟨a, ha, rfl⟩ := List.mem_map.mp hr
    by_cases hag : a.guild_id = g
    · rw [if_pos hag] at hg
      exact absurd hag hg
    · rw [if_neg hag]
      exact ha
  · intro n hn
    simp [level_up_suppressed]
    omega

/-- Witness for C10: a guild with one row at level 2 and a stale
last-notified level of 2; after the reset both are 0 and a later
level-up to 1 is not suppressed. -/
theorem full_reset_restores_announcements_witness :
    ((⟨"g", "u", 0, 0, 0⟩ : UserRow).xp = 0 ∧
      (⟨"g", "u", 0, 0, 0⟩ : UserRow).level = 0 ∧
      (⟨"g", "u", 0, 0, 0⟩ : UserRow).voice_xp_earned = 0) ∧
    level_up_suppressed 1 0 = false :=
  have h := full_reset_restores_announcements
    [⟨"g", "u", 2345, 2, 100⟩] [⟨"g", "u", 2⟩] "g"
  ⟨h.1 ⟨"g", "u", 0, 0, 0⟩ (by decide) rfl, h.2.2.2 1 (by decide)⟩
